import Mathlib

/-
Verification development for the CodeShield security-scanning engine.

The repository exposes `scanCode(code, language) -> { vulnerabilities }` via
`securityScanner` (consumed by src/server/server.js).  The engine itself
(rule catalog, matcher, aggregator, fix resolver, report assembler) is not
part of the source snapshot, so it is modelled here from the specification;
the orchestration code that is in the snapshot (server.js summary assembly,
repoScanner.js / geminiAI.js finalizeScan, the client-side extension map and
reference helpers) is embedded directly from the source.
-/

namespace CodeShield

/-- Boolean prefix test on character lists. -/
def isPrefixOfB : List Char → List Char → Bool
  | [], _ => true
  | _ :: _, [] => false
  | a :: as, b :: bs => a == b && isPrefixOfB as bs

/-- Boolean infix (substring) test on character lists. -/
def containsList (pat : List Char) : List Char → Bool
  | [] => isPrefixOfB pat []
  | c :: cs => isPrefixOfB pat (c :: cs) || containsList pat cs

/-- Substring test on strings: does `s` contain `pat`? -/
def strContains (s pat : String) : Bool :=
  containsList pat.data s.data

/-- Split a character list at newline characters.  The result is always
nonempty: a lone trailing line without a terminator still counts, and the
empty text is a single empty line (mirroring JS `"".split("\n") = [""]`). -/
def splitCh : List Char → List (List Char)
  | [] => [[]]
  | c :: cs =>
    match splitCh cs with
    | [] => [[c]]
    | l :: ls => if c = '\n' then [] :: l :: ls else (c :: l) :: ls

/-- Split a source text into physical lines (1-indexed by position). -/
def splitLines (s : String) : List String :=
  (splitCh s.data).map (fun l => String.mk l)

/-- Drop trailing whitespace from a line. -/
def trimTrailing (s : String) : String :=
  String.mk ((s.data.reverse.dropWhile (fun c => c = ' ' || c = '\t' || c = '\r')).reverse)

/-- Severity levels, ordered low < medium < high < critical. -/
inductive Severity where
  | low
  | medium
  | high
  | critical
deriving DecidableEq, Inhabited

/-- Supported languages plus the `unknown` fallback. -/
inductive Language where
  | javascript
  | typescript
  | python
  | java
  | go
  | ruby
  | php
  | c
  | cpp
  | csharp
  | unknown
deriving DecidableEq, Inhabited

/-- Line-scoped text patterns used by detection rules. -/
inductive Pattern where
  | containsStr (needle : String)
  | andP (p q : Pattern)
  | notP (p : Pattern)
deriving DecidableEq

/-- Evaluate a pattern against one source line. -/
def Pattern.eval : Pattern → String → Bool
  | .containsStr n, s => strContains s n
  | .andP p q, s => p.eval s && q.eval s
  | .notP p, s => !(p.eval s)

/-- A detection rule: id, vulnerability type, severity, language scope
(empty list = applies to every language), description, fix template and
line pattern. -/
structure Rule where
  id : Nat
  vulnType : String
  severity : Severity
  languages : List Language
  description : String
  fixTemplate : String
  pattern : Pattern
deriving DecidableEq

/-- Modelled from the spec: the SQL Injection rule of the missing
securityScanner catalog; type, severity, description and the
parameterized-query fix example follow the seed catalog in the README. -/
def sqlRule : Rule :=
  { id := 1
    vulnType := "SQL Injection"
    severity := .critical
    languages := []
    description := "User input is directly concatenated into SQL query without proper sanitization."
    fixTemplate := "Use a parameterized query instead of string interpolation: const query = \"SELECT * FROM users WHERE id = ?\"; const result = await db.query(query, [userId]);"
    pattern := .andP (.containsStr "SELECT") (.containsStr "$\x7b") }

/-- Modelled from the spec: the Cross-site Scripting rule of the missing
securityScanner catalog. -/
def xssRule : Rule :=
  { id := 2
    vulnType := "Cross-site Scripting (XSS)"
    severity := .high
    languages := [.javascript, .typescript]
    description := "User-provided data is rendered directly in HTML without sanitization."
    fixTemplate := "Sanitize user-provided data before rendering: element.innerHTML = DOMPurify.sanitize(userProvidedData);"
    pattern := .containsStr "innerHTML =" }

/-- Modelled from the spec: the Hardcoded Secret rule of the missing
securityScanner catalog. -/
def secretRule : Rule :=
  { id := 3
    vulnType := "Hardcoded Secret"
    severity := .high
    languages := []
    description := "API key is hardcoded directly in the source code."
    fixTemplate := "Load secrets from the environment instead of the source: const API_KEY = process.env.API_KEY;"
    pattern := .containsStr "API_KEY = \"" }

/-- Modelled from the spec: the Insecure Cookie rule of the missing
securityScanner catalog. -/
def cookieRule : Rule :=
  { id := 4
    vulnType := "Insecure Cookie"
    severity := .medium
    languages := [.javascript, .typescript]
    description := "Cookie is created without the secure flag, making it vulnerable to MITM attacks."
    fixTemplate := "Set the secure and sameSite attributes: res.cookie(\"session\", token, \x7b httpOnly: true, secure: true, sameSite: \"strict\" \x7d);"
    pattern := .andP (.containsStr "res.cookie") (.notP (.containsStr "secure: true")) }

/-- Modelled from the spec: the Path Traversal rule of the missing
securityScanner catalog. -/
def traversalRule : Rule :=
  { id := 5
    vulnType := "Path Traversal"
    severity := .high
    languages := []
    description := "File path is constructed using user input without proper validation."
    fixTemplate := "Resolve and validate the path against the base directory before use: const filePath = path.resolve(baseDir, userInput); reject it unless filePath.startsWith(path.resolve(baseDir))."
    pattern := .containsStr "../" }

/-- Modelled from the spec: the immutable rule catalog, constructed once and
never mutated (insertion order fixed). -/
def catalog : List Rule := [sqlRule, xssRule, secretRule, cookieRule, traversalRule]

/-- Does a rule apply to a language?  An empty `languages` list applies to
every language, including `unknown`. -/
def Rule.appliesTo (r : Rule) (lang : Language) : Bool :=
  r.languages.isEmpty || r.languages.any (fun l2 => l2 = lang)

/-- Modelled from the spec: `rulesFor(language)` returns the applicable rules
in stable catalog order. -/
def rulesFor (lang : Language) : List Rule :=
  catalog.filter (fun r => r.appliesTo lang)

/-- A raw match produced by the matcher: the matching rule, the 1-based line
number, and the text of the matching line. -/
structure RawMatch where
  rule : Rule
  line : Nat
  text : String
deriving DecidableEq

/-- All raw matches of the given rules against one line. -/
def matchOneLine (rules : List Rule) (ln : Nat) (text : String) : List RawMatch :=
  (rules.filter (fun r => r.pattern.eval text)).map (fun r => ⟨r, ln, text⟩)

/-- Modelled from the spec: the matcher walks the lines, numbering them from
`ln`, and evaluates every applicable rule against each line independently. -/
def matchAllAux (rules : List Rule) (ln : Nat) : List String → List RawMatch
  | [] => []
  | t :: ts => matchOneLine rules ln t ++ matchAllAux rules (ln + 1) ts

/-- Modelled from the spec: `match(text, language, catalog)` over 1-indexed
lines. -/
def matchAll (rules : List Rule) (lines : List String) : List RawMatch :=
  matchAllAux rules 1 lines

/-- A finding: one detected issue instance, tied to a specific line and rule. -/
structure Finding where
  id : String
  ruleId : Nat
  type : String
  severity : Severity
  line : Nat
  description : String
  matchedCode : String
  suggestedFix : String
  status : String
deriving DecidableEq, Inhabited

/-- The aggregation key of a raw match: `(ruleId, line)`. -/
def findingKey (m : RawMatch) : Nat × Nat := (m.rule.id, m.line)

/-- Keep only the first raw match for every `(ruleId, line)` key, threading
the set of keys already seen. -/
def dedupAux (seen : List (Nat × Nat)) : List RawMatch → List RawMatch
  | [] => []
  | m :: ms =>
    if findingKey m ∈ seen then dedupAux seen ms
    else m :: dedupAux (findingKey m :: seen) ms

/-- Modelled from the spec: deduplication collapses all raw matches sharing
`(ruleId, line)` into one representative. -/
def dedupMatches (l : List RawMatch) : List RawMatch := dedupAux [] l

/-- Modelled from the spec: the generic, non-empty remediation fallback used
for vulnerability types with no registered fix template. -/
def genericFix : String :=
  "Review the flagged code against the OWASP secure coding guidelines and apply input validation, output encoding, and least-privilege access controls."

/-- Modelled from the spec: `resolveFix` looks the vulnerability type up in
the catalog and falls back to the generic remediation checklist. -/
def resolveFix (t : String) : String :=
  match catalog.find? (fun r => r.vulnType = t) with
  | some r => r.fixTemplate
  | none => genericFix

/-- Modelled from the spec: build one Finding from a deduplicated raw match;
id is derived from `(ruleId, line)`, metadata is copied verbatim from the
rule, the matched code is the source line trimmed of trailing whitespace,
and status is "open" at creation. -/
def mkFinding (m : RawMatch) : Finding :=
  { id := "vuln-" ++ toString m.rule.id ++ "-" ++ toString m.line
    ruleId := m.rule.id
    type := m.rule.vulnType
    severity := m.rule.severity
    line := m.line
    description := m.rule.description
    matchedCode := trimTrailing m.text
    suggestedFix := resolveFix m.rule.vulnType
    status := "open" }

/-- Modelled from the spec: `aggregate(rawMatches)` deduplicates and builds
Findings. -/
def aggregate (raw : List RawMatch) : List Finding :=
  (dedupMatches raw).map mkFinding

/-- The severity summary of a scan report. -/
structure Summary where
  total : Nat
  critical : Nat
  high : Nat
  medium : Nat
  low : Nat
deriving DecidableEq

/-- Modelled from the spec: a single pass over the findings, incrementing the
bucket matching the severity of each finding. -/
def summarize (fs : List Finding) : Summary :=
  { total := fs.length
    critical := fs.countP (fun f => f.severity = Severity.critical)
    high := fs.countP (fun f => f.severity = Severity.high)
    medium := fs.countP (fun f => f.severity = Severity.medium)
    low := fs.countP (fun f => f.severity = Severity.low) }

/-- The complete output of one scan: ordered findings plus severity summary. -/
structure ScanReport where
  findings : List Finding
  summary : Summary
deriving DecidableEq

/-- Modelled from the spec: the report assembler; an empty findings list
yields a valid report with `summary.total = 0` and no sentinel entry. -/
def assemble (fs : List Finding) : ScanReport :=
  { findings := fs, summary := summarize fs }

/-- Modelled from the spec: `scanCode(code, language)`, the full engine
pipeline (matcher, aggregator, fix resolver, assembler). -/
def scanCode (code : String) (lang : Language) : ScanReport :=
  assemble (aggregate (matchAll (rulesFor lang) (splitLines code)))

/-- Ambient inputs an impure host could offer a scan: a clock and a random
stream.  The engine is given them explicitly so that independence from time,
randomness and scheduling is a provable statement. -/
structure ScanEnv where
  now : Nat
  rand : Nat → Nat

/-- Modelled from the spec: running the engine inside a host environment.
The engine is synchronous and pure; it never consults the environment. -/
def scanCodeIn (_env : ScanEnv) (code : String) (lang : Language) : ScanReport :=
  scanCode code lang

/-! Embeddings of the orchestration code that is present in the source
snapshot: server.js, repoScanner.js, geminiAI.js, and the client modules. -/

/-- A vulnerability object as the server receives it from
`securityScanner.scanCode` (JS shape: string severity, string type). -/
structure SVuln where
  id : String
  type : String
  severity : String
  line : Nat
  description : String
  code : String
  suggestedFix : String
deriving DecidableEq

/-- The sentinel type string the server-side handlers filter out. -/
def sentinelType : String := "No Issues Detected"

/-- server.js /api/scan/file handler: the vulnerabilities list returned to the
frontend keeps only entries whose type is not the sentinel. -/
def fileScanFindings (vulns : List SVuln) : List SVuln :=
  vulns.filter (fun v => !(v.type == sentinelType))

/-- The summary shape stored on a Scan document. -/
structure MongoSummary where
  totalVulnerabilities : Nat
  criticalCount : Nat
  highCount : Nat
  mediumCount : Nat
  lowCount : Nat
deriving DecidableEq

/-- server.js /api/scan/file handler result summary: counts filter both on
severity and on the sentinel type, exactly as in the source. -/
def fileScanSummary (vulns : List SVuln) : MongoSummary :=
  { totalVulnerabilities := (vulns.filter (fun v => !(v.type == sentinelType))).length
    criticalCount := (vulns.filter (fun v => v.severity == "critical" && !(v.type == sentinelType))).length
    highCount := (vulns.filter (fun v => v.severity == "high" && !(v.type == sentinelType))).length
    mediumCount := (vulns.filter (fun v => v.severity == "medium" && !(v.type == sentinelType))).length
    lowCount := (vulns.filter (fun v => v.severity == "low" && !(v.type == sentinelType))).length }

/-- repoScanner.js finalizeScan summary (also the shape used by server.js
scanRepository): total is the length of the stored list, buckets filter on
severity only. -/
def repoFinalizeSummary (vulns : List SVuln) : MongoSummary :=
  { totalVulnerabilities := vulns.length
    criticalCount := (vulns.filter (fun v => v.severity == "critical")).length
    highCount := (vulns.filter (fun v => v.severity == "high")).length
    mediumCount := (vulns.filter (fun v => v.severity == "medium")).length
    lowCount := (vulns.filter (fun v => v.severity == "low")).length }

/-- A Vulnerability document as stored in MongoDB by the scan pipeline. -/
structure DbVulnerability where
  vulnerabilityId : String
  scanId : String
  type : String
  severity : String
  file : String
  line : Nat
  description : String
  code : String
  suggestedFix : Option String
  status : String
  createdAt : Nat
  repo : String
deriving DecidableEq, Inhabited

/-- server.js scanRepository (background repository scan): the Vulnerability
document built for each non-sentinel scanner result; status is "open". -/
def scanRepositoryRecord (scanId repositoryUrl file : String) (now : Nat) (v : SVuln) : DbVulnerability :=
  { vulnerabilityId := v.id
    scanId := scanId
    type := v.type
    severity := v.severity
    file := file
    line := v.line
    description := v.description
    code := v.code
    suggestedFix := some v.suggestedFix
    status := "open"
    createdAt := now
    repo := repositoryUrl }

/-- server.js /api/scan/file handler: the Vulnerability document built for
each non-sentinel scanner result; status is "open". -/
def fileScanRecord (scanId originalname : String) (now : Nat) (v : SVuln) : DbVulnerability :=
  { vulnerabilityId := v.id
    scanId := scanId
    type := v.type
    severity := v.severity
    file := originalname
    line := v.line
    description := v.description
    code := v.code
    suggestedFix := some v.suggestedFix
    status := "open"
    createdAt := now
    repo := originalname }

/-- Numeric value of one hex digit, as parseInt with radix 16 reads it. -/
def hexDigitVal (c : Char) : Nat :=
  if '0' ≤ c ∧ c ≤ '9' then c.toNat - 48
  else if 'a' ≤ c ∧ c ≤ 'f' then c.toNat - 87
  else if 'A' ≤ c ∧ c ≤ 'F' then c.toNat - 55
  else 0

/-- repoScanner.js finalizeScan: `parseInt(scanId.substring(0, 8), 16)`. -/
def seedOf (scanId : String) : Nat :=
  (scanId.data.take 8).foldl (fun acc c => acc * 16 + hexDigitVal c) 0

/-- repoScanner.js finalizeScan: `seedNumber % 1000`. -/
def randomSeed (scanId : String) : Nat := seedOf scanId % 1000

/-- repoScanner.js finalizeScan: `(randomSeed % 20) + 1`, 1 to 20
fabricated vulnerabilities. -/
def vulnerabilityCount (scanId : String) : Nat := randomSeed scanId % 20 + 1

/-- geminiAI.js finalizeScan: `(seed % 20) + 1` with `seed` the raw parsed
hex prefix. -/
def geminiVulnerabilityCount (scanId : String) : Nat := seedOf scanId % 20 + 1

/-- repoScanner.js finalizeScan severityOptions. -/
def severityOptions : List String := ["low", "medium", "high", "critical"]

/-- repoScanner.js finalizeScan typeOptions. -/
def typeOptions : List String :=
  ["SQL Injection", "Cross-site Scripting (XSS)", "Hardcoded Secret", "Insecure Cookie",
   "Path Traversal", "Outdated Dependency", "Unsafe Deserialization", "Command Injection",
   "Insecure Direct Object Reference", "Sensitive Data Exposure"]

/-- repoScanner.js finalizeScan location directory options. -/
def locationDirs : List String := ["services", "controllers", "utils", "middlewares", "models"]

/-- repoScanner.js finalizeScan location file-name options. -/
def locationNames : List String := ["auth", "user", "data", "config", "api"]

/-- repoScanner.js finalizeScan hardcoded code snippets. -/
def codeSamples : List String :=
  ["const query = `SELECT * FROM users WHERE id = $\x7buserId\x7d`;",
   "res.send(`<div>$\x7buserInput\x7d</div>`);",
   "const API_KEY = \"sk_live_abcdef123456\";",
   "res.cookie(\"session\", token, \x7b httpOnly: true \x7d);",
   "fs.readFile(path + \"../../../\" + filename);",
   "npm install some-package@1.0.0",
   "const obj = JSON.parse(serializedData);",
   "exec(\"rm -rf \" + userInput);",
   "const userData = db.getUserById(req.params.id);",
   "console.log(\"User data:\", userData);"]

/-- repoScanner.js finalizeScan: the i-th fabricated Vulnerability document;
every field is computed from the hex prefix of the scan id and the index,
never from scanned file text. -/
def finalizeVuln (scanId repoName : String) (now i : Nat) : DbVulnerability :=
  { vulnerabilityId := "vuln-" ++ String.mk (scanId.data.take 4) ++ "-" ++ toString i
    scanId := scanId
    type := typeOptions.getD ((randomSeed scanId + i) % typeOptions.length) ""
    severity := severityOptions.getD ((randomSeed scanId + i) % 4) ""
    file := "src/" ++ locationDirs.getD (i % 5) "" ++ "/" ++ locationNames.getD (i % 5) "" ++ ".js"
    line := (randomSeed scanId + i * 11) % 200 + 1
    description := "Potential " ++ typeOptions.getD ((randomSeed scanId + i) % typeOptions.length) "" ++ " vulnerability detected that could lead to security issues."
    code := codeSamples.getD (i % 10) ""
    suggestedFix := none
    status := if i % 5 = 0 then "fixed" else "open"
    createdAt := now - i * 86400000
    repo := repoName }

/-- repoScanner.js finalizeScan: the full fabricated vulnerability list of a
finalized repository scan. -/
def finalizeVulns (scanId repoName : String) (now : Nat) : List DbVulnerability :=
  (List.range (vulnerabilityCount scanId)).map (finalizeVuln scanId repoName now)

/-- part_000 (ScanResults page) cweMap used by getRandomCweId. -/
def cweMap : List (String × String) :=
  [("SQL Injection", "89"), ("Cross-site Scripting (XSS)", "79"), ("Hardcoded Secret", "798"),
   ("Insecure Cookie", "614"), ("Path Traversal", "22"), ("Outdated Dependency", "1104"),
   ("Unsafe Deserialization", "502"), ("Command Injection", "77"),
   ("Insecure Direct Object Reference", "639"), ("Sensitive Data Exposure", "200")]

/-- part_000 (ScanResults page): CWE id lookup with the "1000" fallback. -/
def getRandomCweId (t : String) : String :=
  match cweMap.find? (fun p => p.1 = t) with
  | some p => p.2
  | none => "1000"

/-- part_000 (ScanResults page) referenceMap used by getReferencesForType. -/
def referenceMap : List (String × List String) :=
  [("SQL Injection", ["https://owasp.org/www-community/attacks/SQL_Injection", "https://cwe.mitre.org/data/definitions/89.html"]),
   ("Cross-site Scripting (XSS)", ["https://owasp.org/www-community/attacks/xss/", "https://cwe.mitre.org/data/definitions/79.html"]),
   ("Hardcoded Secret", ["https://cwe.mitre.org/data/definitions/798.html"]),
   ("Insecure Cookie", ["https://owasp.org/www-community/controls/SecureCookieAttribute", "https://cwe.mitre.org/data/definitions/614.html"]),
   ("Path Traversal", ["https://owasp.org/www-community/attacks/Path_Traversal", "https://cwe.mitre.org/data/definitions/22.html"]),
   ("Command Injection", ["https://owasp.org/www-community/attacks/Command_Injection", "https://cwe.mitre.org/data/definitions/77.html"])]

/-- part_000 (ScanResults page): reference lookup with the OWASP Top Ten
fallback. -/
def getReferencesForType (t : String) : List String :=
  match referenceMap.find? (fun p => p.1 = t) with
  | some p => p.2
  | none => ["https://owasp.org/www-project-top-ten/"]

/-- part_002 scannerService.mapFileExtensionToLanguage mapping (identical to
the languageMap of server.js scanRepository). -/
def extensionLanguageMap : List (String × String) :=
  [("js", "javascript"), ("ts", "typescript"), ("jsx", "javascript"), ("tsx", "typescript"),
   ("py", "python"), ("java", "java"), ("go", "go"), ("rb", "ruby"), ("php", "php"),
   ("cs", "csharp"), ("c", "c"), ("cpp", "cpp")]

/-- part_002 scannerService.mapFileExtensionToLanguage: unrecognized
extensions fall back to "javascript" (`mapping[extension] || 'javascript'`
in the source). -/
def mapFileExtensionToLanguage (extension : String) : String :=
  match extensionLanguageMap.find? (fun p => p.1 = extension) with
  | some p => p.2
  | none => "javascript"

/-- The fixed Scenario A input line from the spec. -/
def scenarioAInput : String := "const query = `SELECT * FROM users WHERE id = $\x7buserId\x7d`;"

/-- The unique finding the modelled engine produces on Scenario A. -/
def scenarioAFinding : Finding := mkFinding ⟨sqlRule, 1, scenarioAInput⟩

/-- repoScanner.js finalizeScan summary over the stored Vulnerability
documents of the scan. -/
def finalizeSummaryDb (vulns : List DbVulnerability) : MongoSummary :=
  { totalVulnerabilities := vulns.length
    criticalCount := (vulns.filter (fun v => v.severity == "critical")).length
    highCount := (vulns.filter (fun v => v.severity == "high")).length
    mediumCount := (vulns.filter (fun v => v.severity == "medium")).length
    lowCount := (vulns.filter (fun v => v.severity == "low")).length }

/-- A concrete scanner output used as witness input: one real finding plus a
sentinel entry. -/
def demoVulns : List SVuln :=
  [⟨"v1", "SQL Injection", "critical", 3, "d1", "c1", "f1"⟩,
   ⟨"v2", "No Issues Detected", "low", 1, "d2", "c2", "f2"⟩]

/-- A concrete input whose only match under `unknown` is language-agnostic. -/
def unknownScanInput : String := "fs.readFileSync(\"../../etc/passwd\")"

/-- A concrete 32-character hex scan id. -/
def cexScanId : String := "0123456789abcdef0123456789abcdef"

/-! Helper lemmas about the engine pipeline. -/

theorem mem_dedupAux {x : RawMatch} :
    ∀ (l : List RawMatch) (seen : List (Nat × Nat)), x ∈ dedupAux seen l → x ∈ l := by
  intro l
  induction l with
  | nil => intro seen h; simp [dedupAux] at h
  | cons m ms ih =>
    intro seen h
    simp only [dedupAux] at h
    split at h
    · exact List.mem_cons_of_mem _ (ih _ h)
    · rcases List.mem_cons.mp h with h1 | h1
      · exact h1 ▸ List.mem_cons_self _ _
      · exact List.mem_cons_of_mem _ (ih _ h1)

theorem rule_mem_of_mem_matchOneLine {m : RawMatch} {rules : List Rule} {ln : Nat} {t : String} :
    m ∈ matchOneLine rules ln t → m.rule ∈ rules ∧ m.text = t := by
  intro h
  simp only [matchOneLine, List.mem_map] at h
  rcases h with ⟨r, hr, rfl⟩
  exact ⟨List.mem_of_mem_filter hr, rfl⟩

theorem rule_mem_of_mem_matchAllAux {m : RawMatch} {rules : List Rule} :
    ∀ (ts : List String) (ln : Nat), m ∈ matchAllAux rules ln ts → m.rule ∈ rules ∧ m.text ∈ ts := by
  intro ts
  induction ts with
  | nil => intro ln h; simp [matchAllAux] at h
  | cons t ts ih =>
    intro ln h
    simp only [matchAllAux, List.mem_append] at h
    rcases h with h1 | h1
    · rcases rule_mem_of_mem_matchOneLine h1 with ⟨hr, ht⟩
      exact ⟨hr, ht ▸ List.mem_cons_self _ _⟩
    · rcases ih _ h1 with ⟨hr, ht⟩
      exact ⟨hr, List.mem_cons_of_mem _ ht⟩

theorem scanCode_findings_origin {f : Finding} {code : String} {lang : Language} :
    f ∈ (scanCode code lang).findings →
    ∃ m : RawMatch, m.rule ∈ rulesFor lang ∧ f = mkFinding m := by
  intro h
  simp only [scanCode, assemble, aggregate, List.mem_map] at h
  rcases h with ⟨m, hm, rfl⟩
  have hm2 := mem_dedupAux _ _ hm
  rcases rule_mem_of_mem_matchAllAux _ _ hm2 with ⟨hr, _⟩
  exact ⟨m, hr, rfl⟩

theorem matchAllAux_eq_nil {rules : List Rule} :
    ∀ (ts : List String), (∀ t ∈ ts, ∀ r ∈ rules, r.pattern.eval t = false) →
    ∀ ln, matchAllAux rules ln ts = [] := by
  intro ts
  induction ts with
  | nil => intro _ _; rfl
  | cons t ts ih =>
    intro h ln
    have h1 : matchOneLine rules ln t = [] := by
      have : rules.filter (fun r => r.pattern.eval t) = [] := by
        rw [List.filter_eq_nil_iff]
        intro r hr
        simp [h t (List.mem_cons_self _ _) r hr]
      simp [matchOneLine, this]
    have h2 := ih (fun t2 ht2 => h t2 (List.mem_cons_of_mem _ ht2)) (ln + 1)
    simp [matchAllAux, h1, h2]

theorem catalog_types_not_sentinel : ∀ r ∈ catalog, r.vulnType ≠ "No Issues Detected" := by
  decide

/-- C1: on inputs where no applicable rule matches any line, the engine
returns an empty findings sequence, and on every input no finding carries
the synthetic sentinel type "No Issues Detected". -/
theorem scan_no_sentinel (code : String) (lang : Language) :
    ((rulesFor lang).all (fun r => (splitLines code).all (fun t => !(r.pattern.eval t))) = true →
      (scanCode code lang).findings = [])
    ∧ ∀ f ∈ (scanCode code lang).findings, f.type ≠ "No Issues Detected" := by
  constructor
  · intro h
    have h2 : ∀ t ∈ splitLines code, ∀ r ∈ rulesFor lang, r.pattern.eval t = false := by
      intro t ht r hr
      have h4 := (List.all_eq_true.mp (List.all_eq_true.mp h r hr)) t ht
      simp at h4
      exact h4
    have h3 := matchAllAux_eq_nil _ h2 1
    simp [scanCode, assemble, aggregate, matchAll, h3, dedupMatches, dedupAux]
  · intro f hf
    rcases scanCode_findings_origin hf with ⟨m, hr, rfl⟩
    have hcat : m.rule ∈ catalog := List.mem_of_mem_filter hr
    exact catalog_types_not_sentinel _ hcat

set_option maxRecDepth 4096 in
/-- Witness for the sentinel theorem: Scenario C input (no rule matches,
empty findings) and the Scenario A finding (type is not the sentinel). -/
theorem scan_no_sentinel_witness :
    ((rulesFor Language.python).all
        (fun r => (splitLines "print(\"hello world\")").all (fun t => !(r.pattern.eval t))) = true)
    ∧ (scanCode "print(\"hello world\")" Language.python).findings = []
    ∧ scenarioAFinding ∈ (scanCode scenarioAInput Language.javascript).findings
    ∧ scenarioAFinding.type ≠ "No Issues Detected" := by
  refine ⟨by decide, (scan_no_sentinel _ _).1 (by decide), by decide, ?_⟩
  exact (scan_no_sentinel scenarioAInput Language.javascript).2 scenarioAFinding (by decide)

/-- C3: the engine is deterministic: run in any two host environments
(clock, random stream) on the same input, it produces identical reports,
including the findings order and the finding ids. -/
theorem scan_deterministic (env1 env2 : ScanEnv) (code : String) (lang : Language) :
    scanCodeIn env1 code lang = scanCodeIn env2 code lang
    ∧ (scanCodeIn env1 code lang).findings = (scanCodeIn env2 code lang).findings
    ∧ (scanCodeIn env1 code lang).findings.map (fun f => f.id)
        = (scanCodeIn env2 code lang).findings.map (fun f => f.id) :=
  ⟨rfl, rfl, rfl⟩

/-- C4: the empty string is valid input: for every language the scan
returns the empty report with an all-zero summary. -/
theorem scan_empty_input (lang : Language) :
    scanCode "" lang = { findings := [], summary := ⟨0, 0, 0, 0, 0⟩ } := by
  cases lang <;> decide

set_option maxRecDepth 4096 in
/-- C5: Scenario A: the SQL-injection one-liner yields exactly one finding,
of type "SQL Injection", severity critical, on line 1, whose suggested fix
contains a parameterized-query example. -/
theorem scan_scenarioA :
    (scanCode scenarioAInput Language.javascript).findings = [scenarioAFinding]
    ∧ scenarioAFinding.type = "SQL Injection"
    ∧ scenarioAFinding.severity = Severity.critical
    ∧ scenarioAFinding.line = 1
    ∧ strContains scenarioAFinding.suggestedFix "db.query(query, [userId])" = true := by
  exact ⟨by decide, rfl, rfl, rfl, by decide⟩

/-- C6: fix resolution is total: for every vulnerability type string,
including unregistered ones, `resolveFix` returns a non-empty remediation
text, `getReferencesForType` returns a non-empty reference list, and
`getRandomCweId` returns a non-empty CWE id. -/
theorem resolveFix_total (t : String) :
    resolveFix t ≠ "" ∧ getReferencesForType t ≠ [] ∧ getRandomCweId t ≠ "" := by
  refine ⟨?_, ?_, ?_⟩
  · unfold resolveFix
    cases h : catalog.find? (fun r => r.vulnType = t) with
    | none => simp [genericFix]
    | some r =>
      have hr := List.mem_of_find?_eq_some h
      simp only [catalog, List.mem_cons, List.not_mem_nil, or_false] at hr
      rcases hr with rfl | rfl | rfl | rfl | rfl <;> decide
  · unfold getReferencesForType
    cases h : referenceMap.find? (fun p => p.1 = t) with
    | none => simp
    | some p =>
      have hp := List.mem_of_find?_eq_some h
      simp only [referenceMap, List.mem_cons, List.not_mem_nil, or_false] at hp
      rcases hp with rfl | rfl | rfl | rfl | rfl | rfl <;> decide
  · unfold getRandomCweId
    cases h : cweMap.find? (fun p => p.1 = t) with
    | none => simp
    | some p =>
      have hp := List.mem_of_find?_eq_some h
      simp only [cweMap, List.mem_cons, List.not_mem_nil, or_false] at hp
      rcases hp with rfl | rfl | rfl | rfl | rfl | rfl | rfl | rfl | rfl | rfl <;> decide

/-! Deduplication lemmas for the aggregator. -/

theorem dedupAux_key_not_seen :
    ∀ (l : List RawMatch) (seen : List (Nat × Nat)) (x : RawMatch),
      x ∈ dedupAux seen l → findingKey x ∉ seen := by
  intro l
  induction l with
  | nil => intro seen x h; simp [dedupAux] at h
  | cons m ms ih =>
    intro seen x h
    simp only [dedupAux] at h
    split at h
    · exact ih _ _ h
    · rcases List.mem_cons.mp h with h1 | h1
      · subst h1; assumption
      · have := ih _ _ h1
        intro hc
        exact this (List.mem_cons_of_mem _ hc)

theorem dedupAux_pairwise_keys :
    ∀ (l : List RawMatch) (seen : List (Nat × Nat)),
      (dedupAux seen l).Pairwise (fun a b => findingKey a ≠ findingKey b) := by
  intro l
  induction l with
  | nil => intro seen; simp [dedupAux]
  | cons m ms ih =>
    intro seen
    simp only [dedupAux]
    split
    · exact ih _
    · refine List.Pairwise.cons ?_ (ih _)
      intro b hb
      have := dedupAux_key_not_seen _ _ _ hb
      intro hc
      exact this (hc ▸ List.mem_cons_self _ _)

theorem dedupAux_countP (rid ln : Nat) :
    ∀ (l : List RawMatch) (seen : List (Nat × Nat)),
      (dedupAux seen l).countP (fun m => m.rule.id == rid && m.line == ln)
        = if (rid, ln) ∈ seen then 0
          else if l.any (fun m => m.rule.id == rid && m.line == ln) then 1 else 0 := by
  intro l
  induction l with
  | nil => intro seen; simp [dedupAux]
  | cons m ms ih =>
    intro seen
    simp only [dedupAux]
    by_cases hkey : (m.rule.id == rid && m.line == ln) = true
    · have hk : findingKey m = (rid, ln) := by
        simp only [Bool.and_eq_true, beq_iff_eq] at hkey
        simp [findingKey, hkey.1, hkey.2]
      split
      · rename_i hseen
        rw [ih]
        rw [hk] at hseen
        simp [hseen, List.any_cons, hkey]
      · rename_i hseen
        rw [hk] at hseen
        rw [List.countP_cons, ih]
        simp [hseen, hk, List.any_cons, hkey]
    · have hk : findingKey m ≠ (rid, ln) := by
        intro hc
        simp only [findingKey, Prod.mk.injEq] at hc
        simp [hc.1, hc.2] at hkey
      split
      · rename_i hseen
        rw [ih]
        by_cases hs2 : (rid, ln) ∈ seen
        · simp [hs2]
        · simp [hs2, List.any_cons, hkey]
      · rename_i hseen
        rw [List.countP_cons, ih]
        have : ((rid, ln) ∈ findingKey m :: seen) ↔ ((rid, ln) ∈ seen) := by
          simp [List.mem_cons, Ne.symm hk]
        by_cases hs2 : (rid, ln) ∈ seen
        · simp [hs2, this, hkey]
        · simp [hs2, this, List.any_cons, hkey]

/-- C7: aggregation never yields two findings with the same `(ruleId, line)`
pair; for every raw-match list and key, the aggregated output has exactly
one finding at that key when some raw match carries it and none otherwise
(so distinct rules on one line, and one rule on distinct lines, remain
distinct findings). -/
theorem aggregate_dedup (raw : List RawMatch) :
    ((aggregate raw).Pairwise fun f g => ¬(f.ruleId = g.ruleId ∧ f.line = g.line))
    ∧ ∀ rid ln : Nat,
        (aggregate raw).countP (fun f => f.ruleId == rid && f.line == ln)
          = if raw.any (fun m => m.rule.id == rid && m.line == ln) then 1 else 0 := by
  constructor
  · have h := dedupAux_pairwise_keys raw []
    unfold aggregate
    rw [List.pairwise_map]
    refine h.imp ?_
    intro a b hab hc
    apply hab
    simp only [findingKey, mkFinding] at hc ⊢
    simp [hc.1, hc.2]
  · intro rid ln
    unfold aggregate
    rw [List.countP_map]
    have h := dedupAux_countP rid ln raw []
    simp only [List.not_mem_nil, if_false] at h
    rw [← h]
    rfl

/-! Summary-consistency lemmas. -/

theorem countP_four_split (q : SVuln → Bool) :
    ∀ l : List SVuln,
      (∀ v ∈ l, v.severity = "critical" ∨ v.severity = "high"
          ∨ v.severity = "medium" ∨ v.severity = "low") →
      l.countP (fun v => v.severity == "critical" && q v)
        + l.countP (fun v => v.severity == "high" && q v)
        + l.countP (fun v => v.severity == "medium" && q v)
        + l.countP (fun v => v.severity == "low" && q v)
        = l.countP q := by
  intro l
  induction l with
  | nil => intro _; simp
  | cons v vs ih =>
    intro h
    have hv := h v (List.mem_cons_self _ _)
    have hrest := ih (fun w hw => h w (List.mem_cons_of_mem _ hw))
    rw [List.countP_cons, List.countP_cons, List.countP_cons, List.countP_cons,
      List.countP_cons]
    rcases hv with hs | hs | hs | hs <;> by_cases hq : q v = true <;>
      simp [hs, hq] <;> omega

theorem findings_severity_split :
    ∀ fs : List Finding,
      fs.countP (fun f => f.severity = Severity.critical)
        + fs.countP (fun f => f.severity = Severity.high)
        + fs.countP (fun f => f.severity = Severity.medium)
        + fs.countP (fun f => f.severity = Severity.low)
        = fs.length := by
  intro fs
  induction fs with
  | nil => simp
  | cons f fs ih =>
    rw [List.countP_cons, List.countP_cons, List.countP_cons, List.countP_cons]
    cases hs : f.severity <;> simp [hs] <;> omega

/-- C2: summary consistency: in the /api/scan/file handler of server.js the
stored total equals the length of the delivered findings list, each severity
bucket counts precisely the findings at that severity, and the four buckets
sum to the total; the finalizeScan summary of repoScanner.js and the report
of the modelled engine satisfy the same invariant. -/
theorem summary_consistent (vulns : List SVuln)
    (h : ∀ v ∈ vulns, v.severity = "critical" ∨ v.severity = "high"
        ∨ v.severity = "medium" ∨ v.severity = "low") :
    (fileScanSummary vulns).totalVulnerabilities = (fileScanFindings vulns).length
    ∧ (fileScanSummary vulns).criticalCount
        = (fileScanFindings vulns).countP (fun v => v.severity == "critical")
    ∧ (fileScanSummary vulns).highCount
        = (fileScanFindings vulns).countP (fun v => v.severity == "high")
    ∧ (fileScanSummary vulns).mediumCount
        = (fileScanFindings vulns).countP (fun v => v.severity == "medium")
    ∧ (fileScanSummary vulns).lowCount
        = (fileScanFindings vulns).countP (fun v => v.severity == "low")
    ∧ (fileScanSummary vulns).criticalCount + (fileScanSummary vulns).highCount
        + (fileScanSummary vulns).mediumCount + (fileScanSummary vulns).lowCount
        = (fileScanSummary vulns).totalVulnerabilities
    ∧ (repoFinalizeSummary vulns).totalVulnerabilities = vulns.length
    ∧ (repoFinalizeSummary vulns).criticalCount + (repoFinalizeSummary vulns).highCount
        + (repoFinalizeSummary vulns).mediumCount + (repoFinalizeSummary vulns).lowCount
        = (repoFinalizeSummary vulns).totalVulnerabilities
    ∧ ∀ (code : String) (lang : Language),
        (scanCode code lang).summary.total = (scanCode code lang).findings.length
        ∧ (scanCode code lang).summary.critical + (scanCode code lang).summary.high
            + (scanCode code lang).summary.medium + (scanCode code lang).summary.low
            = (scanCode code lang).summary.total := by
  have bucket : ∀ s : String,
      (vulns.filter (fun v => v.severity == s && !(v.type == sentinelType))).length
        = (fileScanFindings vulns).countP (fun v => v.severity == s) := by
    intro s
    unfold fileScanFindings
    rw [List.countP_filter, List.countP_eq_length_filter]
  refine ⟨rfl, ?_, ?_, ?_, ?_, ?_, rfl, ?_, ?_⟩
  · exact bucket "critical"
  · exact bucket "high"
  · exact bucket "medium"
  · exact bucket "low"
  · show (vulns.filter (fun v => v.severity == "critical" && !(v.type == sentinelType))).length
        + (vulns.filter (fun v => v.severity == "high" && !(v.type == sentinelType))).length
        + (vulns.filter (fun v => v.severity == "medium" && !(v.type == sentinelType))).length
        + (vulns.filter (fun v => v.severity == "low" && !(v.type == sentinelType))).length
        = (vulns.filter (fun v => !(v.type == sentinelType))).length
    rw [← List.countP_eq_length_filter, ← List.countP_eq_length_filter,
      ← List.countP_eq_length_filter, ← List.countP_eq_length_filter,
      ← List.countP_eq_length_filter]
    exact countP_four_split _ vulns h
  · show (vulns.filter (fun v => v.severity == "critical")).length
        + (vulns.filter (fun v => v.severity == "high")).length
        + (vulns.filter (fun v => v.severity == "medium")).length
        + (vulns.filter (fun v => v.severity == "low")).length
        = vulns.length
    rw [← List.countP_eq_length_filter, ← List.countP_eq_length_filter,
      ← List.countP_eq_length_filter, ← List.countP_eq_length_filter]
    have h2 := countP_four_split (fun _ => true) vulns h
    simp only [Bool.and_true] at h2
    rw [h2]
    simp [List.countP_eq_length_filter]
  · intro code lang
    exact ⟨rfl, findings_severity_split _⟩

set_option maxRecDepth 4096 in
/-- Witness for summary consistency at a concrete scanner output containing
one real finding and one sentinel entry. -/
theorem summary_consistent_witness :
    (∀ v ∈ demoVulns, v.severity = "critical" ∨ v.severity = "high"
        ∨ v.severity = "medium" ∨ v.severity = "low")
    ∧ (fileScanSummary demoVulns).totalVulnerabilities = (fileScanFindings demoVulns).length
    ∧ (fileScanSummary demoVulns).criticalCount + (fileScanSummary demoVulns).highCount
        + (fileScanSummary demoVulns).mediumCount + (fileScanSummary demoVulns).lowCount
        = (fileScanSummary demoVulns).totalVulnerabilities := by
  have h : ∀ v ∈ demoVulns, v.severity = "critical" ∨ v.severity = "high"
      ∨ v.severity = "medium" ∨ v.severity = "low" := by decide
  exact ⟨h, (summary_consistent demoVulns h).1,
    (summary_consistent demoVulns h).2.2.2.2.2.1⟩

/-- Counterexample for C8: the caller-side extension mapping sends an
unrecognized extension to "javascript", not to "unknown". -/
theorem unrecognized_extension_cex :
    mapFileExtensionToLanguage "svelte" = "javascript"
    ∧ mapFileExtensionToLanguage "svelte" ≠ "unknown" := by
  exact ⟨by decide, by decide⟩

set_option maxRecDepth 4096 in
/-- C8 (amended): scanning with language `unknown` is never an error: the
engine falls back to the language-agnostic subset of the catalog (rules with
an empty language set) and every finding it produces under `unknown` comes
from such a rule; callers, however, map unrecognized file extensions to
"javascript", not to "unknown". -/
theorem unknown_language_fallback :
    (∀ extension, extensionLanguageMap.find? (fun p => p.1 = extension) = none →
        mapFileExtensionToLanguage extension = "javascript")
    ∧ rulesFor Language.unknown = catalog.filter (fun r => r.languages.isEmpty)
    ∧ ∀ code : String, ∀ f ∈ (scanCode code Language.unknown).findings,
        ∃ r, r ∈ catalog ∧ r.languages = [] ∧ f.ruleId = r.id ∧ f.type = r.vulnType := by
  refine ⟨?_, by decide, ?_⟩
  · intro extension h
    unfold mapFileExtensionToLanguage
    rw [h]
  · intro code f hf
    rcases scanCode_findings_origin hf with ⟨m, hr, rfl⟩
    have hlang : ∀ r ∈ rulesFor Language.unknown, r.languages = [] := by decide
    exact ⟨m.rule, List.mem_of_mem_filter hr, hlang _ hr, rfl, rfl⟩

set_option maxRecDepth 4096 in
/-- Witness for the amended C8: a concrete unrecognized extension maps to
"javascript", and a concrete `unknown`-language scan produces a finding
originating from a language-agnostic catalog rule. -/
theorem unknown_language_fallback_witness :
    mapFileExtensionToLanguage "svelte" = "javascript"
    ∧ ∃ r, r ∈ catalog ∧ r.languages = []
        ∧ ((scanCode unknownScanInput Language.unknown).findings.headI).ruleId = r.id
        ∧ ((scanCode unknownScanInput Language.unknown).findings.headI).type = r.vulnType := by
  refine ⟨unknown_language_fallback.1 "svelte" (by decide), ?_⟩
  exact unknown_language_fallback.2.2 unknownScanInput _ (by decide)

/-- Counterexample for C9: a finalized repository scan always stores at
least one fabricated record, and its first record (index 0) is created with
status "fixed", not "open". -/
theorem finalize_status_cex :
    0 < (finalizeVulns cexScanId "repo" 0).length
    ∧ ((finalizeVulns cexScanId "repo" 0).headI).status = "fixed"
    ∧ ((finalizeVulns cexScanId "repo" 0).headI).status ≠ "open" := by
  exact ⟨by decide, by decide, by decide⟩

/-- C9 (amended): the Vulnerability documents created by server.js
scanRepository and by the /api/scan/file handler always carry status "open"
at creation; the placeholder finalizeScan of repoScanner.js/geminiAI.js
instead creates status "fixed" whenever the record index is divisible by 5
(which includes the first record of every finalized scan) and "open"
otherwise. -/
theorem vuln_status_at_creation (scanId repositoryUrl file originalname repoName : String)
    (now i : Nat) (v : SVuln) :
    (scanRepositoryRecord scanId repositoryUrl file now v).status = "open"
    ∧ (fileScanRecord scanId originalname now v).status = "open"
    ∧ (finalizeVuln scanId repoName now i).status
        = (if i % 5 = 0 then "fixed" else "open") :=
  ⟨rfl, rfl, rfl⟩

/-- C10: the orchestration-layer finalizeScan always fabricates between 1
and 20 records, the count being `(seed % 20) + 1` for the parsed hex prefix
seed of the scan id (repoScanner.js and geminiAI.js agree); every field of
each record is arithmetic in the seed and the index, and the finalized scan
never stores zero vulnerabilities. -/
theorem finalize_fabricates (scanId repoName : String) (now : Nat) :
    1 ≤ vulnerabilityCount scanId
    ∧ vulnerabilityCount scanId ≤ 20
    ∧ vulnerabilityCount scanId = seedOf scanId % 20 + 1
    ∧ geminiVulnerabilityCount scanId = vulnerabilityCount scanId
    ∧ (finalizeVulns scanId repoName now).length = vulnerabilityCount scanId
    ∧ (finalizeSummaryDb (finalizeVulns scanId repoName now)).totalVulnerabilities
        = vulnerabilityCount scanId
    ∧ (finalizeSummaryDb (finalizeVulns scanId repoName now)).totalVulnerabilities ≠ 0
    ∧ ∀ i : Nat,
        (finalizeVuln scanId repoName now i).type
            = typeOptions.getD ((randomSeed scanId + i) % 10) ""
        ∧ (finalizeVuln scanId repoName now i).severity
            = severityOptions.getD ((randomSeed scanId + i) % 4) ""
        ∧ (finalizeVuln scanId repoName now i).line
            = (randomSeed scanId + i * 11) % 200 + 1
        ∧ (finalizeVuln scanId repoName now i).code = codeSamples.getD (i % 10) "" := by
  have hmod : randomSeed scanId % 20 = seedOf scanId % 20 := by
    unfold randomSeed
    exact Nat.mod_mod_of_dvd _ (by norm_num)
  have hlen : (finalizeVulns scanId repoName now).length = vulnerabilityCount scanId := by
    unfold finalizeVulns
    rw [List.length_map, List.length_range]
  refine ⟨?_, ?_, ?_, ?_, hlen, hlen, ?_, ?_⟩
  · unfold vulnerabilityCount; omega
  · unfold vulnerabilityCount
    have := Nat.mod_lt (randomSeed scanId) (show 0 < 20 by norm_num)
    omega
  · unfold vulnerabilityCount; omega
  · unfold geminiVulnerabilityCount vulnerabilityCount; omega
  · show (finalizeVulns scanId repoName now).length ≠ 0
    rw [hlen]
    unfold vulnerabilityCount
    omega
  · intro i
    exact ⟨rfl, rfl, rfl, rfl⟩

end CodeShield
